import Mathlib

/-!
Verification of the ps2mcs synchronization engine (src/ps2mcs.py,
src/mapping/flat.py, src/sync_target.py) against its specification.

The Python code is shallowly embedded: pure helpers become Lean functions,
the filesystem / FTP effects become explicit state passing over a `World`
record, raised exceptions become `Except` / returned error components, and
timestamps are integers (whole seconds).
-/

set_option autoImplicit false
set_option linter.unusedVariables false

namespace Ps2mcs

/-! ## Regular-expression matching used by the path mappers

Both `ps2mcs.create_remote_path` and `FlatMappingStrategy.map_to_remote` /
`map_to_local` match with `re.match(r"([^/]+)-([1-8])\.<ext>$", s)` for a
fixed literal extension, with no flags (in particular no `re.IGNORECASE`).
-/

/-- A character accepted by the class `[1-8]`. -/
def chanDigit (c : Char) : Bool :=
  c = '1' || c = '2' || c = '3' || c = '4' ||
  c = '5' || c = '6' || c = '7' || c = '8'

/-- Matching of `([^/]+)-([1-8])\.<ext>` against a full character list
(the end-of-input role of `$` is handled by `reMatchCard`).  Because the
tail `-[1-8]\.<ext>` is pinned to the end, the greedy group `([^/]+)`,
anchored at the start by `re.match`, is forced to be exactly the prefix
before the final `-<digit>.<ext>`; the match succeeds iff that prefix is
nonempty and free of `/`.  Returns group 1 on success. -/
def splitCard (ext : List Char) (cs : List Char) : Option (List Char) :=
  let tailLen := 3 + ext.length
  if cs.length < tailLen + 1 then none
  else
    let g1 := cs.take (cs.length - tailLen)
    match cs.drop (cs.length - tailLen) with
    | '-' :: d :: '.' :: e =>
        if chanDigit d && e == ext && !(g1.contains '/') then some g1 else none
    | _ => none

/-- `re.match(r"([^/]+)-([1-8])\.<ext>$", s)`, returning group 1.  Python's
`$` matches at the end of the string and also just before a newline that
ends the string, so a single trailing newline is tolerated. -/
def reMatchCard (ext : String) (s : String) : Option String :=
  match splitCard ext.data s.data with
  | some g1 => some (String.mk g1)
  | none =>
      if s.data.getLast? = some '\n' then
        (splitCard ext.data s.data.dropLast).map String.mk
      else none

/-! ## pathlib helpers -/

/-- `pathlib.PurePath(s).name` for the simple paths this program builds:
trailing slashes are dropped, then the part after the last `/` is taken. -/
def pyPathName (s : String) : String :=
  let rev := s.data.reverse.dropWhile (fun c => c == '/')
  String.mk (rev.takeWhile (fun c => c != '/')).reverse

/-- `pathlib.PurePath(s).stem`: the final component without its suffix,
where the suffix is `name[i:]` for `i` the index of the last `.` in the
name, provided `0 < i < len(name) - 1`; otherwise the whole name. -/
def pyStem (s : String) : String :=
  let name := (pyPathName s).data
  let n := name.length
  match List.findIdx? (fun c => c == '.') name.reverse with
  | none => String.mk name
  | some j =>
      let i := n - 1 - j
      if 0 < i ∧ i < n - 1 then String.mk (name.take i) else String.mk name

/-! ## Path mapping (src/mapping/flat.py and src/ps2mcs.py) -/

/-- Errors raised during the mapping phase: `InvalidTargetFormatError`
(one copy lives in src/ps2mcs.py, one in src/mapping/flat.py; both model to
this constructor) and the `AttributeError` raised by looking up a method
name an object does not define. -/
inductive MapErr
  | invalidTargetFormat
  | attributeError (method : String)
deriving DecidableEq, Repr

def MCPD2_PS2_ROOT : String := "PS2"

def MCPD2_PS1_ROOT : String := "PS1"

/-- `FlatMappingStrategy.map_to_local` (src/mapping/flat.py lines 17-27):
a filename matching `([^/]+)-([1-8])\.mcd$` flattens to
`{local_root}/{stem}.mcd`; every other filename — whatever its extension —
flattens to `{local_root}/{stem}.bin`. -/
def map_to_local (filename : String) (local_root : String) : String :=
  if (reMatchCard "mcd" filename).isSome then
    local_root ++ "/" ++ pyStem filename ++ ".mcd"
  else
    local_root ++ "/" ++ pyStem filename ++ ".bin"

/-- `FlatMappingStrategy.map_to_remote` (src/mapping/flat.py lines 29-45):
the `.mc2` pattern maps under the PS2 root, the `.mcd` pattern under the
PS1 root, group 1 becoming the card directory; anything else raises
`InvalidTargetFormatError`. -/
def map_to_remote (filename : String) : Except MapErr String :=
  match reMatchCard "mc2" filename with
  | some gameid => .ok (MCPD2_PS2_ROOT ++ "/" ++ gameid ++ "/" ++ filename)
  | none =>
      match reMatchCard "mcd" filename with
      | some gameid => .ok (MCPD2_PS1_ROOT ++ "/" ++ gameid ++ "/" ++ filename)
      | none => .error .invalidTargetFormat

/-- `create_remote_path` (src/ps2mcs.py lines 170-180): only the `.mc2`
pattern is known here; on a match the result is
`Path("PS2") / Path(f"{group1}/{target_file}")`, i.e. the string
`PS2/<group1>/<target_file>`; otherwise `InvalidTargetFormatError`. -/
def create_remote_path (target_file : String) : Except MapErr String :=
  match reMatchCard "mc2" target_file with
  | some filename => .ok (MCPD2_PS2_ROOT ++ "/" ++ filename ++ "/" ++ target_file)
  | none => .error .invalidTargetFormat

/-! ## The mapping phase of main (src/ps2mcs.py) -/

/-- The method names the class `FlatMappingStrategy` defines
(src/mapping/flat.py lines 12-45). -/
def flatMappingStrategyMethods : List String :=
  ["__init__", "map_to_local", "map_to_remote"]

/-- Whether the attribute lookup `ms.map_remote_to_local` on a
`FlatMappingStrategy` instance finds a method. -/
def flatHasMapRemoteToLocal : Bool :=
  flatMappingStrategyMethods.contains "map_remote_to_local"

/-- One loop iteration of `map_file_paths` (src/ps2mcs.py lines 61-75) for
target `vmc`: first `create_remote_path(vmc)` (may raise
`InvalidTargetFormatError`), then the attribute lookup
`ms.map_remote_to_local`, which raises `AttributeError` because the class
defines no such method.  The `.ok` branch is dead code in this program: the
local-path construction and the `mkdir` are never reached, so no local path
is ever produced (modelled by an empty placeholder). -/
def map_file_paths_step (vmc : String) : Except MapErr (String × String) :=
  match create_remote_path vmc with
  | .error e => .error e
  | .ok target_path =>
      if flatHasMapRemoteToLocal then .ok (target_path, "")
      else .error (.attributeError "map_remote_to_local")

/-- `map_file_paths` (src/ps2mcs.py lines 61-75): iterates the targets in
order, appending one `(remote, local)` pair per target; the first raised
exception aborts the loop and propagates. -/
def map_file_paths (local_root : String) : List String → Except MapErr (List (String × String))
  | [] => .ok []
  | vmc :: rest =>
      match map_file_paths_step vmc with
      | .error e => .error e
      | .ok p =>
          match map_file_paths local_root rest with
          | .error e => .error e
          | .ok ps => .ok (p :: ps)

/-- Result of the phases of `main` (src/ps2mcs.py lines 31-53) relevant
here: `map_file_paths` runs strictly before `asyncio.run(sync_all(...))`;
any exception it raises is caught by the top-level handler and the run ends
without `sync_all` ever being called, so no FTP connection is opened. -/
inductive RunPhase
  | failedBeforeNetwork (e : MapErr)
  | reachedNetwork (mapped : List (String × String))
deriving DecidableEq, Repr

/-- The mapping-then-network sequencing of `main`. -/
def main_phases (local_root : String) (targets : List String) : RunPhase :=
  match map_file_paths local_root targets with
  | .error e => .failedBeforeNetwork e
  | .ok mapped => .reachedNetwork mapped

/-! ## Modify-time parsing (src/ps2mcs.py lines 182-183) -/

/-- Value of a string of decimal digits. -/
def digitsToNat (cs : List Char) : Nat :=
  cs.foldl (fun a c => a * 10 + (c.toNat - '0'.toNat)) 0

/-- Days in a month of the proleptic Gregorian calendar, as validated by
the `datetime` constructor. -/
def daysInMonth (y m : Nat) : Nat :=
  if m = 2 then (if y % 4 = 0 ∧ (y % 100 ≠ 0 ∨ y % 400 = 0) then 29 else 28)
  else if m = 4 ∨ m = 6 ∨ m = 9 ∨ m = 11 then 30
  else 31

/-- Days from 1970-01-01 of the civil date y-m-d (proleptic Gregorian),
the standard days-from-civil computation. -/
def daysFromCivil (y m d : Int) : Int :=
  let y1 := if m ≤ 2 then y - 1 else y
  let era := (if 0 ≤ y1 then y1 else y1 - 399) / 400
  let yoe := y1 - era * 400
  let doy := (153 * ((m + 9) % 12) + 2) / 5 + d - 1
  let doe := yoe * 365 + yoe / 4 - yoe / 100 + doy
  era * 146097 + doe - 719468

/-- POSIX epoch seconds of a UTC wall-clock date-time. -/
def epochOfUTC (y m d hh mi ss : Int) : Int :=
  daysFromCivil y m d * 86400 + hh * 3600 + mi * 60 + ss

/-- Field extraction and validation of
`datetime.strptime(s, "%Y%m%d%H%M%S")` on a 14-digit string: four year
digits then two digits each for month, day, hour, minute, second, with the
ranges the `datetime` constructor enforces (year 1-9999, month 1-12, day
within the month, hour 0-23, minute and second 0-59). -/
def parseFtpTime (s : String) : Option (Nat × Nat × Nat × Nat × Nat × Nat) :=
  let cs := s.data
  if cs.length = 14 ∧ cs.all Char.isDigit then
    let y := digitsToNat (cs.take 4)
    let mo := digitsToNat ((cs.drop 4).take 2)
    let d := digitsToNat ((cs.drop 6).take 2)
    let hh := digitsToNat ((cs.drop 8).take 2)
    let mi := digitsToNat ((cs.drop 10).take 2)
    let ss := digitsToNat ((cs.drop 12).take 2)
    if 1 ≤ y ∧ 1 ≤ mo ∧ mo ≤ 12 ∧ 1 ≤ d ∧ d ≤ daysInMonth y mo ∧
        hh ≤ 23 ∧ mi ≤ 59 ∧ ss ≤ 59 then
      some (y, mo, d, hh, mi, ss)
    else none
  else none

/-- `ftp_time_to_unix_timestamp` (src/ps2mcs.py lines 182-183):
`datetime.strptime(s, '%Y%m%d%H%M%S')` yields a naive datetime, and
`.timestamp()` on a naive datetime interprets it as LOCAL time, so the
result is the epoch value of the wall clock minus the environment's UTC
offset.  The local timezone's offset in seconds east of UTC (e.g. 3600 for
UTC+1) is therefore an input of the model, exactly as it is an input of
the Python computation; `int(...)` is exact here because a fixed-offset
timestamp of a whole-second wall clock is integral. -/
def ftp_time_to_unix_timestamp (tzOffset : Int) (ftp_time_str : String) : Option Int :=
  (parseFtpTime ftp_time_str).map fun (y, mo, d, hh, mi, ss) =>
    epochOfUTC (Int.ofNat y) (Int.ofNat mo) (Int.ofNat d)
      (Int.ofNat hh) (Int.ofNat mi) (Int.ofNat ss) - tzOffset

/-! ## The sync engine (src/ps2mcs.py lines 77-168)

The effectful code is embedded as explicit state passing over a `World`:
the local filesystem's files, the remote files' modify times, and the two
clocks that stamp writes.  Exceptions raised by an operation are returned
in the second component, together with the world as the operation left it
(a raised exception does not undo writes already made). -/

/-- Exceptions (subclasses of Python's `Exception`) that the per-target
FTP and filesystem operations can raise; the `except Exception` handler in
`sync_file` catches exactly these.  (`asyncio.CancelledError` derives from
`BaseException` and is outside this model.) -/
inductive PyErr
  | remoteQueryError
  | transferError
deriving DecidableEq, Repr

/-- A local file as the sync engine observes it: byte content and
access/modify times in whole seconds.  Stored times are integral because
every timestamp this program writes is an integer, and the model's clocks
are already truncated to seconds, so `int(os.path.getmtime(p))` reads the
stored value back exactly. -/
structure LocalFile where
  data : List Nat
  atime : Int
  mtime : Int
deriving DecidableEq, Repr

/-- State the engine reads and writes: local files by path, remote modify
times by path (in seconds, as the MDTM query reports them), the local
clock that stamps plain writes, and the server clock that stamps uploads
(the MCP2 sets a file's time implicitly on upload; MFMT is unsupported). -/
structure World where
  localFiles : String → Option LocalFile
  remote : String → Option Int
  now : Int
  serverNow : Int

/-- Pointwise update of a path-indexed map. -/
def updateFile (fs : String → Option LocalFile) (p : String) (f : Option LocalFile) :
    String → Option LocalFile :=
  fun q => if q = p then f else fs q

/-- Per-call behavior of the FTP data streams, an input of the model: the
blocks a download of a path delivers before either finishing or
terminating abnormally, and whether an upload stream to a path fails. -/
structure StreamEnv where
  dlBlocks : String → List (List Nat)
  dlErr : String → Option PyErr
  upErr : String → Option PyErr

/-- `get_remote_modified_time` (src/ps2mcs.py lines 165-168): the MDTM
query returns the remote file's modify time; on a path the server rejects
(e.g. an absent file) aioftp raises a `StatusCodeError`.  The world's
`remote` map already stores the parsed seconds value. -/
def get_remote_modified_time (w : World) (filename : String) : Except PyErr Int :=
  match w.remote filename with
  | some t => .ok t
  | none => .error .remoteQueryError

/-- `sync_remote_file_to_local_stream` (src/ps2mcs.py lines 148-163): the
remote size is queried first (raising if the remote file is gone, with the
local file untouched); then `open(local_path, "wb")` creates or truncates
the local file and the stream's delivered blocks are written into it, the
OS stamping the write with the local clock; only after the stream finishes
normally does `os.utime(local_path, (rmt, rmt))` run.  On abnormal stream
termination the exception propagates and the partial file keeps its write
timestamp. -/
def sync_remote_file_to_local_stream (env : StreamEnv) (w : World)
    (remote_path local_path : String) (rmt : Int) : World × Option PyErr :=
  match w.remote remote_path with
  | none => (w, some .remoteQueryError)
  | some _ =>
      let bytes := (env.dlBlocks remote_path).flatten
      let w1 := { w with localFiles := updateFile w.localFiles local_path (some ⟨bytes, w.now, w.now⟩) }
      match env.dlErr remote_path with
      | some e => (w1, some e)
      | none =>
          let w2 := { w1 with localFiles := updateFile w1.localFiles local_path (some ⟨bytes, rmt, rmt⟩) }
          (w2, none)

/-- `sync_local_file_to_remote_stream` (src/ps2mcs.py lines 117-140):
`os.path.getsize` raises if the local file is absent; otherwise the file's
bytes are streamed to the remote path, the server stamping the remote
file's modify time with its own clock.  After a normal finish the code
re-queries MDTM and runs `os.utime(local_path, (rmt, rmt))` with the
queried post-upload remote time; on abnormal termination the exception
propagates and no utime happens. -/
def sync_local_file_to_remote_stream (env : StreamEnv) (w : World)
    (local_path remote_path : String) : World × Option PyErr :=
  match w.localFiles local_path with
  | none => (w, some .transferError)
  | some f =>
      let w1 := { w with remote := fun q => if q = remote_path then some w.serverNow else w.remote q }
      match env.upErr remote_path with
      | some e => (w1, some e)
      | none =>
          match get_remote_modified_time w1 remote_path with
          | .error e => (w1, some e)
          | .ok rmt =>
              let lf : LocalFile := { f with atime := rmt, mtime := rmt }
              let w2 := { w1 with localFiles := updateFile w1.localFiles local_path (some lf) }
              (w2, none)

/-- The three actions the comparison in `sync_file` can choose. -/
inductive Decision
  | Download
  | Upload
  | NoOp
deriving DecidableEq, Repr

/-- The decision logic of `sync_file` (src/ps2mcs.py lines 90-105), as a
function of the remote modify time and the local modify time when a local
file exists: `rmt > lmt` downloads, `lmt > rmt` uploads, equality only
prints `Files are in sync`; with no local file it downloads. -/
def sync_decision (rmt : Int) (lmt : Option Int) : Decision :=
  match lmt with
  | some l => if rmt > l then .Download else if l > rmt then .Upload else .NoOp
  | none => .Download

/-- Observable outcome of one `sync_file` call: which branch ran, or the
caught exception logged together with the remote path
(`print(f"Error syncing file {remote_path}: {e}")`). -/
inductive SyncOutcome
  | downloaded
  | uploaded
  | insync
  | errorLogged (remote_path : String) (e : PyErr)
deriving DecidableEq, Repr

/-- `sync_file` (src/ps2mcs.py lines 85-107): query the remote modify
time, read the local file's time when it exists (`int(os.path.getmtime)`),
compare, run the chosen transfer, and catch any `Exception` raised along
the way, logging it with the remote path. -/
def sync_file (env : StreamEnv) (w : World) (local_path remote_path : String) :
    World × SyncOutcome :=
  match get_remote_modified_time w remote_path with
  | .error e => (w, .errorLogged remote_path e)
  | .ok rmt =>
      match w.localFiles local_path with
      | some f =>
          if rmt > f.mtime then
            match sync_remote_file_to_local_stream env w remote_path local_path rmt with
            | (w1, none) => (w1, .downloaded)
            | (w1, some e) => (w1, .errorLogged remote_path e)
          else if f.mtime > rmt then
            match sync_local_file_to_remote_stream env w local_path remote_path with
            | (w1, none) => (w1, .uploaded)
            | (w1, some e) => (w1, .errorLogged remote_path e)
          else (w, .insync)
      | none =>
          match sync_remote_file_to_local_stream env w remote_path local_path rmt with
          | (w1, none) => (w1, .downloaded)
          | (w1, some e) => (w1, .errorLogged remote_path e)

/-- The per-target loop of `sync_all` (src/ps2mcs.py lines 77-83): the
mapped pairs are `(remote, local)` tuples and each in order is handed to
`sync_file` (whose internal handler swallows per-target exceptions), so
the loop always runs to the end of the list.  Returns the final world and
one outcome per target, in order. -/
def sync_all (env : StreamEnv) : World → List (String × String) → World × List SyncOutcome
  | w, [] => (w, [])
  | w, (rp, lp) :: rest =>
      let r1 := sync_file env w lp rp
      let r2 := sync_all env r1.1 rest
      (r2.1, r1.2 :: r2.2)

end Ps2mcs

deriving instance DecidableEq for Except

namespace Ps2mcs

/-! ## Shared lemmas and concrete test fixtures -/

/-- FlatMappingStrategy defines no method named `map_remote_to_local`. -/
theorem flatHasMapRemoteToLocal_eq_false : flatHasMapRemoteToLocal = false := by decide

/-- Mapping a nonempty target list always raises at the first target: either
`create_remote_path` rejects it, or the `map_remote_to_local` attribute
lookup fails. -/
theorem map_file_paths_cons_error (local_root vmc : String) (rest : List String) :
    ∃ e, map_file_paths local_root (vmc :: rest) = .error e := by
  cases h : create_remote_path vmc with
  | error e => exact ⟨e, by simp [map_file_paths, map_file_paths_step, h]⟩
  | ok rp =>
      exact ⟨.attributeError "map_remote_to_local",
        by simp [map_file_paths, map_file_paths_step, h, flatHasMapRemoteToLocal_eq_false]⟩

/-- On a character list of the exact grammar shape
`<g1> ++ "-" ++ <d> ++ "." ++ <ext>` with `g1` nonempty and slash-free and
`d` a channel digit, `splitCard` returns the greedy group `g1`. -/
theorem splitCard_append (ext g1 : List Char) (d : Char)
    (hg : g1 ≠ []) (hslash : '/' ∉ g1) (hd : chanDigit d = true) :
    splitCard ext (g1 ++ '-' :: d :: '.' :: ext) = some g1 := by
  have hg0 : g1.length ≠ 0 := fun h => hg (List.length_eq_zero.mp h)
  have hlen : (g1 ++ '-' :: d :: '.' :: ext).length = g1.length + (3 + ext.length) := by
    simp [List.length_append]
    omega
  simp only [splitCard]
  rw [if_neg (by omega)]
  have hsub : (g1 ++ '-' :: d :: '.' :: ext).length - (3 + ext.length) = g1.length := by omega
  rw [hsub, List.take_left, List.drop_left]
  simp [hd, hslash]

/-- `splitCard` fails when the characters in the extension position have
the pattern extension's length but are not the pattern's extension. -/
theorem splitCard_append_ne (ext ext' g1 : List Char) (d : Char)
    (hlen : ext'.length = ext.length) (hne : (ext' == ext) = false) :
    splitCard ext (g1 ++ '-' :: d :: '.' :: ext') = none := by
  have hlen2 : (g1 ++ '-' :: d :: '.' :: ext').length = g1.length + (3 + ext.length) := by
    simp [List.length_append, hlen]
    omega
  rcases Nat.eq_zero_or_pos g1.length with h0 | hpos
  · have hgnil : g1 = [] := List.length_eq_zero.mp h0
    subst hgnil
    simp only [splitCard, List.nil_append]
    rw [if_pos (by simp [hlen]; omega)]
  · simp only [splitCard]
    rw [if_neg (by omega)]
    have hsub : (g1 ++ '-' :: d :: '.' :: ext').length - (3 + ext.length) = g1.length := by omega
    rw [hsub, List.take_left, List.drop_left]
    simp [hne]

/-- `reMatchCard` through a successful `splitCard` on the full string. -/
theorem reMatchCard_some_of (ext : String) (cs g1 : List Char)
    (h1 : splitCard ext.data cs = some g1) :
    reMatchCard ext (String.mk cs) = some (String.mk g1) := by
  simp [reMatchCard, h1]

/-- `reMatchCard` fails when `splitCard` fails on the full string and the
string does not end in a newline (so the `$`-before-newline rule is not in
play). -/
theorem reMatchCard_none_of (ext : String) (cs : List Char)
    (h1 : splitCard ext.data cs = none) (h2 : cs.getLast? ≠ some '\n') :
    reMatchCard ext (String.mk cs) = none := by
  simp [reMatchCard, h1, h2]

/-- `create_remote_path` raises nothing but InvalidTargetFormatError. -/
theorem create_remote_path_error (vmc : String) (e : MapErr)
    (h : create_remote_path vmc = .error e) : e = .invalidTargetFormat := by
  cases hm : reMatchCard "mc2" vmc with
  | some g => simp [create_remote_path, hm] at h
  | none =>
      simp [create_remote_path, hm] at h
      exact h.symm

/-- Stream environment in which every download finishes normally with no
blocks and every upload finishes normally. -/
def nilEnv : StreamEnv where
  dlBlocks := fun _ => []
  dlErr := fun _ => none
  upErr := fun _ => none

/-! ## The claims -/

/-- C1: with the remote file present, the decision is Download when no
local file exists; otherwise, comparing whole-second times, Download when
the remote time is greater, Upload when the local time is greater, and
NoOp at equality — where `sync_file` performs no transfer and leaves the
world unchanged. -/
theorem C1_conflict_resolution (rmt l : Int) :
    sync_decision rmt none = .Download
    ∧ (rmt > l → sync_decision rmt (some l) = .Download)
    ∧ (l > rmt → sync_decision rmt (some l) = .Upload)
    ∧ (rmt = l → sync_decision rmt (some l) = .NoOp)
    ∧ (∀ env w lp rp f, w.remote rp = some rmt → w.localFiles lp = some f →
        f.mtime = rmt → sync_file env w lp rp = (w, .insync)) := by
  refine ⟨rfl, ?_, ?_, ?_, ?_⟩
  · intro h; simp [sync_decision, h]
  · intro h
    have h' : ¬ rmt > l := not_lt.mpr (le_of_lt h)
    simp [sync_decision, h, h']
  · intro h; subst h; simp [sync_decision]
  · intro env w lp rp f h1 h2 h3
    simp [sync_file, get_remote_modified_time, h1, h2, h3]

/-- World for the C1 witness: remote and local times both 100. -/
def C1world : World where
  localFiles := fun p => if p = "L" then some ⟨[7], 100, 100⟩ else none
  remote := fun p => if p = "R" then some 100 else none
  now := 0
  serverNow := 0

/-- C1 witness: the spec's decision table, and the in-sync call leaving
the world untouched. -/
theorem C1_conflict_resolution_witness :
    sync_decision 100 none = .Download
    ∧ sync_decision 100 (some 50) = .Download
    ∧ sync_decision 50 (some 100) = .Upload
    ∧ sync_decision 100 (some 100) = .NoOp
    ∧ sync_file nilEnv C1world "L" "R" = (C1world, .insync) :=
  ⟨(C1_conflict_resolution 100 50).1,
   (C1_conflict_resolution 100 50).2.1 (by decide),
   (C1_conflict_resolution 50 100).2.2.1 (by decide),
   (C1_conflict_resolution 100 100).2.2.2.1 rfl,
   (C1_conflict_resolution 100 100).2.2.2.2 nilEnv C1world "L" "R" ⟨[7], 100, 100⟩
     (by decide) (by decide) rfl⟩

/-- C2: false as stated — for `SLUS-21274-1.mc2` the card directory both
mappers build is `SLUS-21274` (regex group 1 stops before the channel
suffix), so the remote path is not `PS2/SLUS-21274-1/SLUS-21274-1.mc2`. -/
theorem C2_counterexample :
    create_remote_path "SLUS-21274-1.mc2" = .ok "PS2/SLUS-21274/SLUS-21274-1.mc2"
    ∧ create_remote_path "SLUS-21274-1.mc2" ≠ .ok "PS2/SLUS-21274-1/SLUS-21274-1.mc2"
    ∧ map_to_remote "SLUS-21274-1.mc2" ≠ .ok "PS2/SLUS-21274-1/SLUS-21274-1.mc2" := by
  decide

/-- C2 amended: identifier `SLUS-21274-1.mc2` maps remotely — by both
`create_remote_path` and `FlatMappingStrategy.map_to_remote` — to
`PS2/SLUS-21274/SLUS-21274-1.mc2`, with card directory `SLUS-21274`, and
locally to `<root>/SLUS-21274-1.bin`. -/
theorem C2_amended_mapping :
    create_remote_path "SLUS-21274-1.mc2" = .ok "PS2/SLUS-21274/SLUS-21274-1.mc2"
    ∧ map_to_remote "SLUS-21274-1.mc2" = .ok "PS2/SLUS-21274/SLUS-21274-1.mc2"
    ∧ map_to_local "SLUS-21274-1.mc2" "<root>" = "<root>/SLUS-21274-1.bin" := by
  decide

/-- C3: the parse of the 14-digit modify-time response is not independent
of the local environment's timezone — `datetime.strptime(...).timestamp()`
reads the wall clock as local time, so the UTC epoch origin string parses
to 0 only at UTC offset 0 and to -3600 at UTC offset +3600. -/
theorem C3_timezone_dependence :
    ftp_time_to_unix_timestamp 0 "19700101000000" = some 0
    ∧ ftp_time_to_unix_timestamp 3600 "19700101000000" = some (-3600)
    ∧ ftp_time_to_unix_timestamp 3600 "19700101000000" ≠
        ftp_time_to_unix_timestamp 0 "19700101000000"
    ∧ ftp_time_to_unix_timestamp 0 "20240101000000" = some 1704067200
    ∧ ftp_time_to_unix_timestamp 3600 "20240101000000" = some 1704063600 := by
  decide

/-- C4: the loop never aborts early — every target yields exactly one
outcome — and a target whose remote modify-time query raises has the
exception caught and logged with its remote path, the world untouched, and
the remaining targets processed exactly as they otherwise would be. -/
theorem C4_per_target_failure_isolation (env : StreamEnv) (w : World)
    (targets rest : List (String × String)) (rp lp : String) :
    (sync_all env w targets).2.length = targets.length
    ∧ (w.remote rp = none →
        sync_all env w ((rp, lp) :: rest) =
          ((sync_all env w rest).1,
            .errorLogged rp .remoteQueryError :: (sync_all env w rest).2)) := by
  constructor
  · induction targets generalizing w with
    | nil => rfl
    | cons t ts ih => cases t; simp [sync_all, ih]
  · intro h
    simp [sync_all, sync_file, get_remote_modified_time, h]

/-- World for the C4 witness: remote file present only at `R2`, no local
files. -/
def C4world : World where
  localFiles := fun _ => none
  remote := fun p => if p = "R2" then some 5 else none
  now := 17
  serverNow := 99

/-- C4 witness: with the first target's remote query failing, both targets
still get an outcome; the first is logged with its remote path and the
second is processed as if it were alone. -/
theorem C4_per_target_failure_isolation_witness :
    C4world.remote "R1" = none
    ∧ (sync_all nilEnv C4world [("R1", "L1"), ("R2", "L2")]).2.length = 2
    ∧ sync_all nilEnv C4world [("R1", "L1"), ("R2", "L2")] =
        ((sync_all nilEnv C4world [("R2", "L2")]).1,
          .errorLogged "R1" .remoteQueryError :: (sync_all nilEnv C4world [("R2", "L2")]).2) := by
  refine ⟨by decide, ?_, ?_⟩
  · exact (C4_per_target_failure_isolation nilEnv C4world
      [("R1", "L1"), ("R2", "L2")] [] "x" "y").1
  · exact (C4_per_target_failure_isolation nilEnv C4world
      [] [("R2", "L2")] "R1" "L1").2 (by decide)

/-- C5: an identifier matching neither known extension pattern fails
mapping with InvalidTargetFormatError in both mappers, and a run whose
target list contains it never reaches the network phase: the mapping
phase itself errors (with InvalidTargetFormatError when the bad
identifier comes first; the loop aborts at its first target either way). -/
theorem C5_invalid_identifier_aborts_run (t : String)
    (hmc2 : reMatchCard "mc2" t = none) (hmcd : reMatchCard "mcd" t = none) :
    create_remote_path t = .error .invalidTargetFormat
    ∧ map_to_remote t = .error .invalidTargetFormat
    ∧ (∀ local_root post,
        main_phases local_root (t :: post) = .failedBeforeNetwork .invalidTargetFormat)
    ∧ (∀ local_root pre post,
        ∃ e, main_phases local_root (pre ++ t :: post) = .failedBeforeNetwork e) := by
  refine ⟨?_, ?_, ?_, ?_⟩
  · simp [create_remote_path, hmc2]
  · simp [map_to_remote, hmc2, hmcd]
  · intro lr post
    simp [main_phases, map_file_paths, map_file_paths_step, create_remote_path, hmc2]
  · intro lr pre post
    cases pre with
    | nil =>
        obtain ⟨e, he⟩ := map_file_paths_cons_error lr t post
        exact ⟨e, by simp [main_phases, he]⟩
    | cons v vs =>
        obtain ⟨e, he⟩ := map_file_paths_cons_error lr v (vs ++ t :: post)
        exact ⟨e, by simp [main_phases, List.cons_append, he]⟩

/-- C5 witness: `memcard.bin` matches no pattern, fails mapping, and a run
listing it first aborts before the network phase with
InvalidTargetFormatError. -/
theorem C5_invalid_identifier_aborts_run_witness :
    reMatchCard "mc2" "memcard.bin" = none
    ∧ reMatchCard "mcd" "memcard.bin" = none
    ∧ create_remote_path "memcard.bin" = .error .invalidTargetFormat
    ∧ main_phases "." ["memcard.bin", "A-1.mc2"] = .failedBeforeNetwork .invalidTargetFormat := by
  refine ⟨by decide, by decide, ?_, ?_⟩
  · exact (C5_invalid_identifier_aborts_run "memcard.bin" (by decide) (by decide)).1
  · exact (C5_invalid_identifier_aborts_run "memcard.bin" (by decide) (by decide)).2.2.1
      "." ["A-1.mc2"]

/-- C6: a download that finishes normally reports no error and stamps the
local file's access and modify times both with the rmt used for the
decision; a download whose stream terminates abnormally returns that
error, and the partial local file keeps the write clock's stamp — its
timestamp is not rewritten to rmt. -/
theorem C6_download_timestamp_reconciliation (env : StreamEnv) (w : World)
    (rp lp : String) (t rmt : Int) (hr : w.remote rp = some t) :
    (env.dlErr rp = none →
        (sync_remote_file_to_local_stream env w rp lp rmt).2 = none
        ∧ ((sync_remote_file_to_local_stream env w rp lp rmt).1).localFiles lp =
            some ⟨(env.dlBlocks rp).flatten, rmt, rmt⟩)
    ∧ (∀ e, env.dlErr rp = some e →
        (sync_remote_file_to_local_stream env w rp lp rmt).2 = some e
        ∧ ((sync_remote_file_to_local_stream env w rp lp rmt).1).localFiles lp =
            some ⟨(env.dlBlocks rp).flatten, w.now, w.now⟩) := by
  constructor
  · intro h
    simp [sync_remote_file_to_local_stream, hr, h, updateFile]
  · intro e h
    simp [sync_remote_file_to_local_stream, hr, h, updateFile]

/-- Stream environment for the C6 witness: two blocks delivered, the
stream for `R2` failing after them, the stream for `R1` finishing. -/
def C6env : StreamEnv where
  dlBlocks := fun _ => [[1, 2], [3]]
  dlErr := fun p => if p = "R2" then some .transferError else none
  upErr := fun _ => none

/-- World for the C6 witness: both remote files present, write clock 55. -/
def C6world : World where
  localFiles := fun _ => none
  remote := fun p => if p = "R1" ∨ p = "R2" then some 400 else none
  now := 55
  serverNow := 0

/-- C6 witness: a clean download lands with atime = mtime = 400 (the rmt);
a failed download propagates the error and leaves the partial file stamped
with the write clock 55, not 400. -/
theorem C6_download_timestamp_reconciliation_witness :
    C6world.remote "R1" = some 400
    ∧ C6env.dlErr "R1" = none
    ∧ (sync_remote_file_to_local_stream C6env C6world "R1" "L1" 400).2 = none
    ∧ ((sync_remote_file_to_local_stream C6env C6world "R1" "L1" 400).1).localFiles "L1" =
        some ⟨[1, 2, 3], 400, 400⟩
    ∧ C6env.dlErr "R2" = some .transferError
    ∧ (sync_remote_file_to_local_stream C6env C6world "R2" "L2" 400).2 = some .transferError
    ∧ ((sync_remote_file_to_local_stream C6env C6world "R2" "L2" 400).1).localFiles "L2" =
        some ⟨[1, 2, 3], 55, 55⟩ := by
  have h1 := (C6_download_timestamp_reconciliation C6env C6world "R1" "L1" 400 400
    (by decide)).1 (by decide)
  have h2 := (C6_download_timestamp_reconciliation C6env C6world "R2" "L2" 400 400
    (by decide)).2 .transferError (by decide)
  exact ⟨by decide, by decide, h1.1, h1.2, by decide, h2.1, h2.2⟩

/-- C7: after an upload stream that finishes normally, the executor
re-queries the remote time — now the server clock that stamped the
upload — and rewrites the local file's access and modify times to it, not
to the pre-upload local time, so an immediately following `sync_file` on
the same pair with no external changes takes the in-sync branch and
changes nothing. -/
theorem C7_upload_timestamp_reconciliation (env env2 : StreamEnv) (w : World)
    (lp rp : String) (f : LocalFile)
    (hl : w.localFiles lp = some f) (hup : env.upErr rp = none) :
    (sync_local_file_to_remote_stream env w lp rp).2 = none
    ∧ ((sync_local_file_to_remote_stream env w lp rp).1).remote rp = some w.serverNow
    ∧ ((sync_local_file_to_remote_stream env w lp rp).1).localFiles lp =
        some { f with atime := w.serverNow, mtime := w.serverNow }
    ∧ sync_file env2 (sync_local_file_to_remote_stream env w lp rp).1 lp rp =
        ((sync_local_file_to_remote_stream env w lp rp).1, .insync) := by
  refine ⟨?_, ?_, ?_, ?_⟩
  · simp [sync_local_file_to_remote_stream, hl, hup, get_remote_modified_time]
  · simp [sync_local_file_to_remote_stream, hl, hup, get_remote_modified_time, updateFile]
  · simp [sync_local_file_to_remote_stream, hl, hup, get_remote_modified_time, updateFile]
  · simp [sync_local_file_to_remote_stream, hl, hup, get_remote_modified_time,
      sync_file, updateFile]

/-- World for the C7 witness: local file at `L` with pre-upload mtime 50,
remote file at `R` older (10), server clock 200. -/
def C7world : World where
  localFiles := fun p => if p = "L" then some ⟨[9], 50, 50⟩ else none
  remote := fun p => if p = "R" then some 10 else none
  now := 60
  serverNow := 200

/-- C7 witness: the upload rewrites the local times to the post-upload
remote value 200 — not the pre-upload 50 — and the follow-up `sync_file`
is a no-op. -/
theorem C7_upload_timestamp_reconciliation_witness :
    C7world.localFiles "L" = some ⟨[9], 50, 50⟩
    ∧ nilEnv.upErr "R" = none
    ∧ (sync_local_file_to_remote_stream nilEnv C7world "L" "R").2 = none
    ∧ ((sync_local_file_to_remote_stream nilEnv C7world "L" "R").1).remote "R" = some 200
    ∧ ((sync_local_file_to_remote_stream nilEnv C7world "L" "R").1).localFiles "L" =
        some ⟨[9], 200, 200⟩
    ∧ sync_file nilEnv (sync_local_file_to_remote_stream nilEnv C7world "L" "R").1 "L" "R" =
        ((sync_local_file_to_remote_stream nilEnv C7world "L" "R").1, .insync) := by
  have h := C7_upload_timestamp_reconciliation nilEnv nilEnv C7world "L" "R"
    ⟨[9], 50, 50⟩ (by decide) rfl
  exact ⟨by decide, rfl, h.1, h.2.1, h.2.2.1, h.2.2.2⟩

/-- C8: false as stated — a non-mc2, non-mcd extension is not kept:
`SLUS-21274-1.txt` flattens to `<root>/SLUS-21274-1.bin`, not to
`<root>/SLUS-21274-1.txt`. -/
theorem C8_counterexample :
    map_to_local "SLUS-21274-1.txt" "<root>" = "<root>/SLUS-21274-1.bin"
    ∧ map_to_local "SLUS-21274-1.txt" "<root>" ≠ "<root>/SLUS-21274-1.txt" := by
  decide

/-- C8 amended: for every filename and every root, a filename matching
`([^/]+)-([1-8])\.mcd$` keeps its `.mcd` extension — the local path is
`<root>/<stem>.mcd` — and every filename not matching it, whatever its
extension (`.mc2`, any other extension, or a `.mcd` name outside the
grammar), flattens to `<root>/<stem>.bin`. -/
theorem C8_amended_local_mapping (filename local_root : String) :
    ((reMatchCard "mcd" filename).isSome = true →
        map_to_local filename local_root = local_root ++ "/" ++ pyStem filename ++ ".mcd")
    ∧ ((reMatchCard "mcd" filename).isSome = false →
        map_to_local filename local_root = local_root ++ "/" ++ pyStem filename ++ ".bin") := by
  constructor <;> intro h <;> simp [map_to_local, h]

/-- C8 witness: the `.mcd`-grammar name keeps `.mcd`; the `.mc2`, `.txt`
and out-of-grammar channel-9 names all flatten to `.bin`. -/
theorem C8_amended_local_mapping_witness :
    (reMatchCard "mcd" "X-1.mcd").isSome = true
    ∧ map_to_local "X-1.mcd" "<root>" = "<root>/X-1.mcd"
    ∧ (reMatchCard "mcd" "X-1.mc2").isSome = false
    ∧ map_to_local "X-1.mc2" "<root>" = "<root>/X-1.bin"
    ∧ (reMatchCard "mcd" "X-1.txt").isSome = false
    ∧ map_to_local "X-1.txt" "<root>" = "<root>/X-1.bin"
    ∧ (reMatchCard "mcd" "X-9.mcd").isSome = false
    ∧ map_to_local "X-9.mcd" "<root>" = "<root>/X-9.bin" := by
  refine ⟨by decide, ?_, by decide, ?_, by decide, ?_, by decide, ?_⟩
  · exact ((C8_amended_local_mapping "X-1.mcd" "<root>").1 (by decide)).trans (by decide)
  · exact ((C8_amended_local_mapping "X-1.mc2" "<root>").2 (by decide)).trans (by decide)
  · exact ((C8_amended_local_mapping "X-1.txt" "<root>").2 (by decide)).trans (by decide)
  · exact ((C8_amended_local_mapping "X-9.mcd" "<root>").2 (by decide)).trans (by decide)

/-- C9: false as stated — matching has no IGNORECASE flag, so
`SLUS-21274-1.MC2` raises InvalidTargetFormatError in both mappers
instead of mapping like the lower-case form. -/
theorem C9_counterexample :
    map_to_remote "SLUS-21274-1.MC2" = .error .invalidTargetFormat
    ∧ create_remote_path "SLUS-21274-1.MC2" = .error .invalidTargetFormat := by
  decide

/-- C9 amended: extension matching is case-sensitive, universally.  For
every identifier of the grammar shape `<g1>-<d>.<ext>` (`g1` nonempty and
slash-free, `d` a channel digit) whose three-character extension lowers to
`mc2` or `mcd` but is not itself the lower-case form, both remote mappers
fail with InvalidTargetFormatError; the lower-case forms map to their
roots in both mappers. -/
theorem C9_amended_case_sensitivity (g1 : List Char) (d : Char) (ext' : List Char)
    (hg : g1 ≠ []) (hslash : '/' ∉ g1) (hd : chanDigit d = true)
    (hlow : ext'.map Char.toLower = "mc2".data ∨ ext'.map Char.toLower = "mcd".data)
    (hne2 : ext' ≠ "mc2".data) (hned : ext' ≠ "mcd".data) :
    map_to_remote (String.mk (g1 ++ '-' :: d :: '.' :: ext')) = .error .invalidTargetFormat
    ∧ create_remote_path (String.mk (g1 ++ '-' :: d :: '.' :: ext')) = .error .invalidTargetFormat
    ∧ map_to_remote (String.mk (g1 ++ '-' :: d :: '.' :: "mc2".data)) =
        .ok (MCPD2_PS2_ROOT ++ "/" ++ String.mk g1 ++ "/" ++
          String.mk (g1 ++ '-' :: d :: '.' :: "mc2".data))
    ∧ create_remote_path (String.mk (g1 ++ '-' :: d :: '.' :: "mc2".data)) =
        .ok (MCPD2_PS2_ROOT ++ "/" ++ String.mk g1 ++ "/" ++
          String.mk (g1 ++ '-' :: d :: '.' :: "mc2".data))
    ∧ map_to_remote (String.mk (g1 ++ '-' :: d :: '.' :: "mcd".data)) =
        .ok (MCPD2_PS1_ROOT ++ "/" ++ String.mk g1 ++ "/" ++
          String.mk (g1 ++ '-' :: d :: '.' :: "mcd".data)) := by
  obtain ⟨a, b, c, rfl, hc⟩ :
      ∃ a b c, ext' = [a, b, c] ∧ (c.toLower = '2' ∨ c.toLower = 'd') := by
    rcases hlow with h | h
    · cases ext' with
      | nil => simp at h
      | cons a t1 =>
          cases t1 with
          | nil => simp at h
          | cons b t2 =>
              cases t2 with
              | nil => simp at h
              | cons c t3 =>
                  cases t3 with
                  | cons e t4 => simp at h
                  | nil =>
                      simp at h
                      exact ⟨a, b, c, rfl, Or.inl h.2.2⟩
    · cases ext' with
      | nil => simp at h
      | cons a t1 =>
          cases t1 with
          | nil => simp at h
          | cons b t2 =>
              cases t2 with
              | nil => simp at h
              | cons c t3 =>
                  cases t3 with
                  | cons e t4 => simp at h
                  | nil =>
                      simp at h
                      exact ⟨a, b, c, rfl, Or.inr h.2.2⟩
  have hcne : c ≠ '\n' := by
    intro hcn
    subst hcn
    rcases hc with h2 | h2
    · exact absurd h2 (by decide)
    · exact absurd h2 (by decide)
  have hlast : (g1 ++ '-' :: d :: '.' :: [a, b, c]).getLast? ≠ some '\n' := by
    rw [List.getLast?_append_cons]
    have hval : ('-' :: d :: '.' :: [a, b, c]).getLast? = some c := rfl
    rw [hval]
    intro hh
    exact hcne (Option.some.inj hh)
  have hm2 : reMatchCard "mc2" (String.mk (g1 ++ '-' :: d :: '.' :: [a, b, c])) = none :=
    reMatchCard_none_of "mc2" _
      (splitCard_append_ne "mc2".data [a, b, c] g1 d (by rfl)
        (beq_eq_false_iff_ne.mpr hne2)) hlast
  have hmd : reMatchCard "mcd" (String.mk (g1 ++ '-' :: d :: '.' :: [a, b, c])) = none :=
    reMatchCard_none_of "mcd" _
      (splitCard_append_ne "mcd".data [a, b, c] g1 d (by rfl)
        (beq_eq_false_iff_ne.mpr hned)) hlast
  have hp2 : reMatchCard "mc2" (String.mk (g1 ++ '-' :: d :: '.' :: "mc2".data)) =
      some (String.mk g1) :=
    reMatchCard_some_of "mc2" _ g1 (splitCard_append "mc2".data g1 d hg hslash hd)
  have hpdneg : reMatchCard "mc2" (String.mk (g1 ++ '-' :: d :: '.' :: "mcd".data)) = none := by
    apply reMatchCard_none_of "mc2" _
      (splitCard_append_ne "mc2".data "mcd".data g1 d (by decide) (by decide))
    rw [List.getLast?_append_cons]
    have hval : ('-' :: d :: '.' :: "mcd".data).getLast? = some 'd' := rfl
    rw [hval]
    intro hh
    exact absurd (Option.some.inj hh) (by decide)
  have hpd : reMatchCard "mcd" (String.mk (g1 ++ '-' :: d :: '.' :: "mcd".data)) =
      some (String.mk g1) :=
    reMatchCard_some_of "mcd" _ g1 (splitCard_append "mcd".data g1 d hg hslash hd)
  exact ⟨by simp [map_to_remote, hm2, hmd],
    by simp [create_remote_path, hm2],
    by simp [map_to_remote, hp2],
    by simp [create_remote_path, hp2],
    by simp [map_to_remote, hpdneg, hpd]⟩

/-- C9 witness: `SLUS-21274-1.MC2` (upper-case extension) fails both
mappers while the lower-case `SLUS-21274-1.mc2` and the `.mcd` family map
to their roots. -/
theorem C9_amended_case_sensitivity_witness :
    ("MC2".data).map Char.toLower = "mc2".data
    ∧ "MC2".data ≠ "mc2".data
    ∧ map_to_remote "SLUS-21274-1.MC2" = .error .invalidTargetFormat
    ∧ create_remote_path "SLUS-21274-1.MC2" = .error .invalidTargetFormat
    ∧ map_to_remote "SLUS-21274-1.mc2" = .ok "PS2/SLUS-21274/SLUS-21274-1.mc2"
    ∧ create_remote_path "SLUS-21274-1.mc2" = .ok "PS2/SLUS-21274/SLUS-21274-1.mc2"
    ∧ map_to_remote "SLUS-21274-1.mcd" = .ok "PS1/SLUS-21274/SLUS-21274-1.mcd" := by
  have h := C9_amended_case_sensitivity "SLUS-21274".data '1' "MC2".data
    (by decide) (by decide) (by decide) (Or.inl (by decide)) (by decide) (by decide)
  exact ⟨by decide, by decide, h.1, h.2.1, h.2.2.1, h.2.2.2.1, h.2.2.2.2⟩

/-- C10: false as stated — when the first target violates the grammar,
mapping fails with InvalidTargetFormatError (raised by
`create_remote_path` before the `map_remote_to_local` lookup), not with
the claimed AttributeError. -/
theorem C10_counterexample :
    map_file_paths "." ["memcard.bin"] = .error .invalidTargetFormat
    ∧ map_file_paths "." ["memcard.bin"] ≠ .error (.attributeError "map_remote_to_local") := by
  decide

/-- C10 amended: mapping any nonempty target list fails before the
network phase — with InvalidTargetFormatError when the first target
violates the grammar, and otherwise with the AttributeError on
`map_remote_to_local`, which FlatMappingStrategy does not define; only
the empty target list maps successfully, to the empty list. -/
theorem C10_nonempty_mapping_always_fails (local_root vmc : String) (rest : List String) :
    (∃ e, map_file_paths local_root (vmc :: rest) = .error e
        ∧ main_phases local_root (vmc :: rest) = .failedBeforeNetwork e)
    ∧ (map_file_paths local_root (vmc :: rest) = .error .invalidTargetFormat
        ∨ map_file_paths local_root (vmc :: rest) = .error (.attributeError "map_remote_to_local"))
    ∧ (∀ rp, create_remote_path vmc = .ok rp →
        map_file_paths local_root (vmc :: rest) = .error (.attributeError "map_remote_to_local"))
    ∧ (create_remote_path vmc = .error .invalidTargetFormat →
        map_file_paths local_root (vmc :: rest) = .error .invalidTargetFormat)
    ∧ map_file_paths local_root [] = .ok []
    ∧ main_phases local_root [] = .reachedNetwork [] := by
  refine ⟨?_, ?_, ?_, ?_, rfl, rfl⟩
  · obtain ⟨e, he⟩ := map_file_paths_cons_error local_root vmc rest
    exact ⟨e, he, by simp [main_phases, he]⟩
  · cases h : create_remote_path vmc with
    | ok rp =>
        right
        simp [map_file_paths, map_file_paths_step, h, flatHasMapRemoteToLocal_eq_false]
    | error e =>
        left
        have he := create_remote_path_error vmc e h
        subst he
        simp [map_file_paths, map_file_paths_step, h]
  · intro rp h
    simp [map_file_paths, map_file_paths_step, h, flatHasMapRemoteToLocal_eq_false]
  · intro h
    simp [map_file_paths, map_file_paths_step, h]

/-- C10 witness: the valid identifier `A-1.mc2` maps to a remote path, yet
`map_file_paths` on the one-element list fails with the AttributeError; a
malformed first identifier fails with InvalidTargetFormatError even with a
valid identifier behind it; the empty list maps to the empty list. -/
theorem C10_nonempty_mapping_always_fails_witness :
    create_remote_path "A-1.mc2" = .ok "PS2/A/A-1.mc2"
    ∧ map_file_paths "." ["A-1.mc2"] = .error (.attributeError "map_remote_to_local")
    ∧ create_remote_path "memcard.bin" = .error .invalidTargetFormat
    ∧ map_file_paths "." ["memcard.bin", "A-1.mc2"] = .error .invalidTargetFormat
    ∧ map_file_paths "." ([] : List String) = .ok [] := by
  refine ⟨by decide, ?_, by decide, ?_,
    (C10_nonempty_mapping_always_fails "." "A-1.mc2" []).2.2.2.2.1⟩
  · exact (C10_nonempty_mapping_always_fails "." "A-1.mc2" []).2.2.1
      "PS2/A/A-1.mc2" (by decide)
  · exact (C10_nonempty_mapping_always_fails "." "memcard.bin" ["A-1.mc2"]).2.2.2.1
      (by decide)

end Ps2mcs
